import Mathlib

/-!
Shallow embedding of the gesture-classification pipeline and the per-frame
morph engine of the Merry-Christmas scene (src/App.tsx,
src/components/HandController.tsx, src/components/ArixChristmasTree.tsx,
src/components/Scene.tsx).  Discrete data (gesture symbols, debounce state,
landmark coordinates) is modelled computably over the rationals; frame-time
dynamics (the three.js MathUtils.damp and MathUtils.lerp helpers the source
calls) are modelled over the reals.
-/

/-- Gesture symbols, from src/types.ts (enum HandGesture). -/
inductive HandGesture where
  | NONE
  | FIST
  | OPEN
  | PINCH
deriving DecidableEq, Repr

/-- Scene states, from src/types.ts (enum TreeState). -/
inductive TreeState where
  | ASSEMBLED
  | SCATTERED
  | PHOTO_ZOOM
deriving DecidableEq, Repr

/-- Debouncer state: the lastGestureRef and gestureFramesRef refs of
src/components/HandController.tsx (lines 15-16). -/
structure DebounceState where
  lastGesture : HandGesture
  gestureFrames : Nat
deriving DecidableEq, Repr

/-- One debounce update, HandController.tsx lines 58-66: on a repeat the
frame counter is incremented, on a change it is reset and the last gesture
replaced; the emitted gesture is the source's finalGesture expression
(whose two conditional branches are identical).  Returns the gesture passed
on to onGesture together with the new state. -/
def debounceStep (s : DebounceState) (raw : HandGesture) : HandGesture × DebounceState :=
  let s2 : DebounceState :=
    if raw = s.lastGesture then
      ⟨s.lastGesture, s.gestureFrames + 1⟩
    else
      ⟨raw, 0⟩
  let finalGesture := if s2.gestureFrames > 2 then s2.lastGesture else s2.lastGesture
  (finalGesture, s2)

/-- The outputs produced by feeding a sequence of raw gestures through the
debouncer, threading the state. -/
def debounceRun (s : DebounceState) : List HandGesture → List HandGesture
  | [] => []
  | raw :: rest => (debounceStep s raw).1 :: debounceRun (debounceStep s raw).2 rest

/-- src/App.tsx handleGesture, lines 34-38: the scene-state transition per
stabilized gesture (no else branch: other gestures leave the state alone). -/
def handleGesture (g : HandGesture) (s : TreeState) : TreeState :=
  match g with
  | HandGesture.FIST => TreeState.ASSEMBLED
  | HandGesture.OPEN => TreeState.SCATTERED
  | _ => s

/-- A 2D landmark point (x, y); rational model of the normalized floats. -/
abbrev Point := ℚ × ℚ

/-- A detected hand: its ordered landmarks, indexed by position in the
source's 21-entry array (only indices 0 to 20 are ever read). -/
abbrev Landmarks := ℕ → Point

/-- Squared planar distance, HandController.tsx line 110 (helper dSq). -/
def dSq (p1 p2 : Point) : ℚ := (p1.1 - p2.1) ^ 2 + (p1.2 - p2.2) ^ 2

/-- Fingertip indices, HandController.tsx line 117. -/
def tips : List ℕ := [8, 12, 16, 20]

/-- Base-joint indices, HandController.tsx line 118. -/
def bases : List ℕ := [5, 9, 13, 17]

/-- Number of folded fingers: HandController.tsx lines 120-126, a fingertip
counts as folded when its squared distance to the wrist is below 1.2 times
its base joint's. -/
def foldedCount (lm : Landmarks) : Nat :=
  ((tips.zip bases).filter
    (fun pr => decide (dSq (lm pr.1) (lm 0) < dSq (lm pr.2) (lm 0) * 1.2))).length

/-- Number of extended fingers: HandController.tsx lines 136-141, a
fingertip counts as extended when its squared distance to the wrist exceeds
1.5 times its base joint's. -/
def extendedCount (lm : Landmarks) : Nat :=
  ((tips.zip bases).filter
    (fun pr => decide (dSq (lm pr.1) (lm 0) > dSq (lm pr.2) (lm 0) * 1.5))).length

/-- HandController.tsx line 130: computed in the source but never used by
the rest of analyzeGesture (dead code, kept for fidelity). -/
def thumbTucked (lm : Landmarks) : Bool :=
  decide (dSq (lm 4) (lm 5) < 0.005) || decide (dSq (lm 4) (lm 9) < 0.005)

/-- HandController.tsx analyzeGesture, lines 106-151: the priority cascade
FIST then OPEN then PINCH then NONE over one landmark set. -/
def analyzeGesture (lm : Landmarks) : HandGesture :=
  if foldedCount lm ≥ 3 then HandGesture.FIST
  else if extendedCount lm ≥ 3 then HandGesture.OPEN
  else if dSq (lm 4) (lm 8) < 0.002 then HandGesture.PINCH
  else HandGesture.NONE

/-- One classification tick, HandController.tsx detect (lines 48-78): with
landmarks present, classify, debounce, and report the wrist as the hand
position; with no landmarks, emit NONE with a null hand position and leave
the debounce refs untouched. -/
def detectFrame (frame : Option Landmarks) (s : DebounceState) :
    (HandGesture × Option Point) × DebounceState :=
  match frame with
  | some lm =>
      let raw := analyzeGesture lm
      let r := debounceStep s raw
      ((r.1, some (lm 0)), r.2)
  | none => ((HandGesture.NONE, none), s)

/-- Concrete landmark set with all four fingertips at the wrist: a fist. -/
def lmFist : Landmarks := fun i =>
  if i = 8 ∨ i = 12 ∨ i = 16 ∨ i = 20 then (0, 0)
  else if i = 5 ∨ i = 9 ∨ i = 13 ∨ i = 17 then (1, 0)
  else (0, 0)

/-- Concrete landmark set: every finger neither folded nor extended, and the
thumb tip at squared distance exactly 0.001 from the index tip. -/
def lmPinch : Landmarks := fun i =>
  if i = 4 then (113 / 100, 1 / 100)
  else if i = 8 ∨ i = 12 ∨ i = 16 ∨ i = 20 then (11 / 10, 0)
  else if i = 5 ∨ i = 9 ∨ i = 13 ∨ i = 17 then (1, 0)
  else (0, 0)

namespace MathUtils

/-- three.js MathUtils.lerp(x, y, t) = (1 - t) * x + t * y. -/
noncomputable def lerp (x y t : ℝ) : ℝ := (1 - t) * x + t * y

/-- three.js MathUtils.damp(x, y, lambda, dt) = lerp(x, y, 1 - exp(-lambda * dt)).
The third parameter is an exponential rate, not a time constant. -/
noncomputable def damp (x y lambda dt : ℝ) : ℝ := lerp x y (1 - Real.exp (-lambda * dt))

end MathUtils

/-- ArixChristmasTree.tsx line 141: morph target per scene state. -/
noncomputable def morphTarget (s : TreeState) : ℝ :=
  if s = TreeState.ASSEMBLED then 1 else 0

/-- ArixChristmasTree.tsx line 143: the constant the source passes as
damp's third argument (2.0 toward ASSEMBLED, 0.8 toward SCATTERED). -/
noncomputable def smoothTime (s : TreeState) : ℝ :=
  if s = TreeState.ASSEMBLED then 2.0 else 0.8

/-- ArixChristmasTree.tsx line 144: the per-frame morph progress update. -/
noncomputable def morphUpdate (p : ℝ) (s : TreeState) (dt : ℝ) : ℝ :=
  MathUtils.damp p (morphTarget s) (smoothTime s) dt

/-- The damping formula as the spec states it (section 4.4 step 1): a
first-order lag with an explicit time constant,
target + (progress - target) * exp(-dt / timeConstant). -/
noncomputable def dampSpecLag (p target tau dt : ℝ) : ℝ :=
  target + (p - target) * Real.exp (-(dt / tau))

/-- Repeated damping toward target 1 starting from progress 0, one damp call
per frame delta in the list. -/
noncomputable def dampRun (lambda : ℝ) (dts : List ℝ) : ℝ :=
  dts.foldl (fun p dt => MathUtils.damp p 1 lambda dt) 0

/-- A 3D vector (three.js Vector3 / Object3D position). -/
@[ext]
structure Vec3 where
  x : ℝ
  y : ℝ
  z : ℝ

/-- Componentwise three.js lerp of two vectors, as the needle, ornament and
light updates apply it coordinate by coordinate. -/
noncomputable def lerpVec (a b : Vec3) (t : ℝ) : Vec3 :=
  ⟨MathUtils.lerp a.x b.x t, MathUtils.lerp a.y b.y t, MathUtils.lerp a.z b.z t⟩

/-- three.js Vector3.lerpVectors(v1, v2, alpha) = v1 + (v2 - v1) * alpha. -/
noncomputable def lerpVectors (v1 v2 : Vec3) (alpha : ℝ) : Vec3 :=
  ⟨v1.x + (v2.x - v1.x) * alpha,
   v1.y + (v2.y - v1.y) * alpha,
   v1.z + (v2.z - v1.z) * alpha⟩

/-- One needle's immutable data, ArixChristmasTree.tsx lines 69-74. -/
structure NeedleEntity where
  scatterPosition : Vec3
  treePosition : Vec3
  rotation : Vec3
  scale : ℝ

/-- ArixChristmasTree.tsx lines 155-159: the needle position written each
frame, a componentwise lerp from scatter to tree position by progress t. -/
noncomputable def needlePosition (e : NeedleEntity) (t : ℝ) : Vec3 :=
  lerpVec e.scatterPosition e.treePosition t

/-- One photo's layout entry, Scene.tsx photoLayout lines 51-78. -/
structure PhotoLayout where
  scatterPos : Vec3
  treePos : Vec3

/-- Scene.tsx line 84: the Scene's own progress target (note the inverted
orientation: 0 when ASSEMBLED, 1 when SCATTERED). -/
noncomputable def sceneTarget (s : TreeState) : ℝ :=
  if s = TreeState.ASSEMBLED then 0 else 1

/-- Scene.tsx line 159: the photo's per-frame target position,
lerpVectors(treePos, scatterPos, t) with t the Scene progress. -/
noncomputable def photoCurrentTarget (l : PhotoLayout) (t : ℝ) : Vec3 :=
  lerpVectors l.treePos l.scatterPos t

/-- Scene.tsx lines 66-67: photo i's spiral height when n photos are
uploaded; the source divides by (length || 1), i.e. max n 1. -/
noncomputable def photoHeight (i n : ℕ) : ℝ :=
  -3 + ((i : ℝ) / ((max n 1 : ℕ) : ℝ)) * 6

/-- Scene.tsx line 68: spiral radius from the height. -/
noncomputable def photoRadius (h : ℝ) : ℝ := ((1 - (h + 5) / 10) * 4) + 1.2

/-- Scene.tsx line 69: golden-angle spiral angle, i * (2 * pi / 1.618). -/
noncomputable def photoAngle (i : ℕ) : ℝ := (i : ℝ) * (2 * Real.pi / 1.618)

/-- Scene.tsx lines 65-74: photo i's tree (configured) position when n
photos are uploaded in total; the whole layout is recomputed from the
current count whenever the photo list changes. -/
noncomputable def photoTreePos (i n : ℕ) : Vec3 :=
  ⟨Real.cos (photoAngle i) * photoRadius (photoHeight i n),
   photoHeight i n,
   Real.sin (photoAngle i) * photoRadius (photoHeight i n)⟩

/-- Claim C9 as stated: a later upload never moves an existing photo's
configured position. -/
def photoNoReflowClaim : Prop :=
  ∀ i n m : ℕ, i < n → n ≤ m → photoTreePos i n = photoTreePos i m

/-- One snow particle's immutable data, Scene.tsx lines 39-45. -/
structure SnowParticle where
  initialPos : Vec3
  velocity : ℝ
  scale : ℝ
  offset : ℝ

/-- The remainder the source's % operator computes on the nonnegative
operands used there: a - b * floor(a / b). -/
noncomputable def jsMod (a b : ℝ) : ℝ := a - b * (⌊a / b⌋ : ℝ)

/-- Scene.tsx lines 114-149: the per-frame snow-particle position.  rand
stands for the Math.random() sample drawn in the explosion branch
(line 138); the falling branch (progress below 0.5) does not read it. -/
noncomputable def particlePosition (p : SnowParticle) (t time rand : ℝ) : Vec3 :=
  if t < 0.5 then
    let yRaw := p.initialPos.y - jsMod (time * p.velocity * 20 + p.offset) 30
    let yWrapped := if yRaw < -15 then yRaw + 30 else yRaw
    ⟨p.initialPos.x + Real.sin (time + p.offset) * 0.5,
     yWrapped,
     p.initialPos.z + Real.cos (time + p.offset) * 0.5⟩
  else
    ⟨p.initialPos.x + (p.initialPos.x / 10) * (t * 15),
     p.initialPos.y + (rand - 0.5) * (t * 15),
     p.initialPos.z + (p.initialPos.z / 10) * (t * 15)⟩

/-- Claim C10 as stated: the particle transform depends only on the entity
data, the progress and the elapsed time, never on the random sample. -/
def particleDeterminismClaim : Prop :=
  ∀ (p : SnowParticle) (t time r1 r2 : ℝ),
    particlePosition p t time r1 = particlePosition p t time r2

/-- A concrete snow particle for counterexamples and witnesses. -/
noncomputable def snowSample : SnowParticle :=
  ⟨⟨10, 0, 0⟩, 0.02, 0.05, 0⟩

/-- C2: the debounced output always equals the raw symbol just observed,
so the stable symbol switches the instant the raw symbol changes; the
frame counter is incremented on a repeat and reset to 0 on a change, and
never gates the output: running any raw sequence through the debouncer
reproduces that sequence. -/
theorem debounce_immediate_switch :
    (∀ (s : DebounceState) (raw : HandGesture),
        (debounceStep s raw).1 = raw ∧
        (debounceStep s raw).2.lastGesture = raw ∧
        (debounceStep s raw).2.gestureFrames =
          (if raw = s.lastGesture then s.gestureFrames + 1 else 0)) ∧
    (∀ (s : DebounceState) (raws : List HandGesture), debounceRun s raws = raws) := by
  have hstep : ∀ (s : DebounceState) (raw : HandGesture),
      (debounceStep s raw).1 = raw ∧
      (debounceStep s raw).2.lastGesture = raw ∧
      (debounceStep s raw).2.gestureFrames =
        (if raw = s.lastGesture then s.gestureFrames + 1 else 0) := by
    intro s raw
    by_cases h : raw = s.lastGesture <;> simp [debounceStep, h]
  refine ⟨hstep, ?_⟩
  intro s raws
  induction raws generalizing s with
  | nil => rfl
  | cons a l ih => simp [debounceRun, (hstep s a).1, ih]

/-- C3: FIST forces ASSEMBLED, OPEN forces SCATTERED, and NONE or PINCH
leaves the scene state unchanged (App.tsx handleGesture). -/
theorem handleGesture_transitions (s : TreeState) :
    handleGesture HandGesture.FIST s = TreeState.ASSEMBLED ∧
    handleGesture HandGesture.OPEN s = TreeState.SCATTERED ∧
    handleGesture HandGesture.NONE s = s ∧
    handleGesture HandGesture.PINCH s = s :=
  ⟨rfl, rfl, rfl, rfl⟩

/-- C4: whenever at least three of the four fingertips are folded (squared
distance to the wrist below 1.2 times the base joint's squared distance),
the classifier returns FIST and in particular never OPEN: the cascade is a
priority order returning exactly one symbol. -/
theorem analyzeGesture_fist_priority (lm : Landmarks) (h : foldedCount lm ≥ 3) :
    analyzeGesture lm = HandGesture.FIST ∧ analyzeGesture lm ≠ HandGesture.OPEN := by
  constructor
  · simp [analyzeGesture, h]
  · simp [analyzeGesture, h]

/-- Witness for C4 at the concrete fist landmark set. -/
theorem analyzeGesture_fist_priority_witness :
    foldedCount lmFist ≥ 3 ∧
      (analyzeGesture lmFist = HandGesture.FIST ∧
        analyzeGesture lmFist ≠ HandGesture.OPEN) :=
  ⟨by norm_num [foldedCount, tips, bases, lmFist, dSq, List.zip, List.filter],
    analyzeGesture_fist_priority lmFist
      (by norm_num [foldedCount, tips, bases, lmFist, dSq, List.zip, List.filter])⟩

/-- C5: with the FIST and OPEN conditions both unmet, the classifier
returns PINCH exactly when the squared thumb-tip/index-tip distance is
below 0.002, and NONE otherwise. -/
theorem analyzeGesture_pinch_iff (lm : Landmarks)
    (hf : foldedCount lm < 3) (he : extendedCount lm < 3) :
    (analyzeGesture lm = HandGesture.PINCH ↔ dSq (lm 4) (lm 8) < 0.002) ∧
      (¬ dSq (lm 4) (lm 8) < 0.002 → analyzeGesture lm = HandGesture.NONE) := by
  have hf2 : ¬ foldedCount lm ≥ 3 := by omega
  have he2 : ¬ extendedCount lm ≥ 3 := by omega
  by_cases hp : dSq (lm 4) (lm 8) < 0.002 <;>
    simp [analyzeGesture, hf2, he2, hp]

/-- Witness for C5 at the concrete landmark set whose thumb-tip/index-tip
squared distance is exactly 0.001: it classifies as PINCH. -/
theorem analyzeGesture_pinch_iff_witness :
    foldedCount lmPinch < 3 ∧ extendedCount lmPinch < 3 ∧
      dSq (lmPinch 4) (lmPinch 8) = 1 / 1000 ∧
      analyzeGesture lmPinch = HandGesture.PINCH :=
  ⟨by norm_num [foldedCount, tips, bases, lmPinch, dSq, List.zip, List.filter],
    by norm_num [extendedCount, tips, bases, lmPinch, dSq, List.zip, List.filter],
    by norm_num [lmPinch, dSq],
    ((analyzeGesture_pinch_iff lmPinch
          (by norm_num [foldedCount, tips, bases, lmPinch, dSq, List.zip, List.filter])
          (by norm_num [extendedCount, tips, bases, lmPinch, dSq, List.zip, List.filter])).1).mpr
      (by norm_num [lmPinch, dSq])⟩

/-- C6: an absent landmark frame yields gesture NONE with a null hand
position and leaves the debounce state untouched; the pipeline is a total
function, so this is a normal result, never an error. -/
theorem detect_no_hand_none (s : DebounceState) :
    detectFrame none s = ((HandGesture.NONE, none), s) := rfl

/-- C1 (code bug): the source's comment and the spec intend time constants
of about 2 s toward ASSEMBLED (slow) and 0.8 s toward SCATTERED (fast),
but THREE.MathUtils.damp's third argument is an exponential rate, so the
code's update is target + (p - target) * exp(-2 * dt) toward ASSEMBLED:
after dt = 1 s from p = 0 the code's progress is 1 - exp(-2), not the
claimed 1 - exp(-1/2), and after 1 s the residual distance to the target
is strictly smaller toward ASSEMBLED than toward SCATTERED — assembly
converges faster, not slower. -/
theorem morph_time_constant_code_bug :
    morphUpdate 0 TreeState.ASSEMBLED 1 = 1 - Real.exp (-2) ∧
    dampSpecLag 0 1 2 1 = 1 - Real.exp (-(1 / 2)) ∧
    morphUpdate 0 TreeState.ASSEMBLED 1 ≠ dampSpecLag 0 1 2 1 ∧
    |1 - morphUpdate 0 TreeState.ASSEMBLED 1| <
      |0 - morphUpdate 1 TreeState.SCATTERED 1| := by
  have e1 : morphUpdate 0 TreeState.ASSEMBLED 1 = 1 - Real.exp (-2) := by
    simp [morphUpdate, MathUtils.damp, MathUtils.lerp, morphTarget, smoothTime]
    norm_num
  have e2 : dampSpecLag 0 1 2 1 = 1 - Real.exp (-(1 / 2)) := by
    simp [dampSpecLag]
    ring
  have e3 : morphUpdate 1 TreeState.SCATTERED 1 = Real.exp (-0.8) := by
    simp [morphUpdate, MathUtils.damp, MathUtils.lerp, morphTarget, smoothTime]
  refine ⟨e1, e2, ?_, ?_⟩
  · rw [e1, e2]
    intro hcontra
    have hexp : Real.exp (-2) = Real.exp (-(1 / 2)) := by linarith
    rw [Real.exp_eq_exp] at hexp
    norm_num at hexp
  · rw [e1, e3]
    have h2 : (0:ℝ) < Real.exp (-2) := Real.exp_pos _
    have h8 : (0:ℝ) < Real.exp (-0.8) := Real.exp_pos _
    have hlt : Real.exp (-2) < Real.exp (-0.8) := by
      rw [Real.exp_lt_exp]
      norm_num
    rw [(by ring : (1:ℝ) - (1 - Real.exp (-2)) = Real.exp (-2)),
        (by ring : (0:ℝ) - Real.exp (-0.8) = -(Real.exp (-0.8))),
        abs_neg, abs_of_pos h2, abs_of_pos h8]
    exact hlt

/-- Closed form for repeated damping toward 1: starting anywhere, only the
total elapsed time matters. -/
theorem damp_foldl_closed_form (lambda : ℝ) :
    ∀ (dts : List ℝ) (p : ℝ),
      dts.foldl (fun q dt => MathUtils.damp q 1 lambda dt) p
        = 1 - (1 - p) * Real.exp (-lambda * dts.sum) := by
  intro dts
  induction dts with
  | nil =>
      intro p
      rw [List.foldl_nil, List.sum_nil, mul_zero, Real.exp_zero]
      ring
  | cons d l ih =>
      intro p
      rw [List.foldl_cons, ih, List.sum_cons]
      have hexp : Real.exp (-lambda * (d + l.sum))
          = Real.exp (-lambda * d) * Real.exp (-lambda * l.sum) := by
        rw [← Real.exp_add]
        ring_nf
      rw [hexp]
      simp only [MathUtils.damp, MathUtils.lerp]
      ring

/-- C7: damping with dt = 0 is the identity for every progress, target and
rate; one damp step toward 1 from any p at most 1, with nonnegative dt,
never decreases p and never exceeds 1 (so the repeated sequence from 0 is
monotonically non-decreasing and bounded by 1); the value after any frame
sequence starting from 0 is 1 - exp(-lambda * total elapsed time); and as
the total elapsed time grows without bound the progress tends to the
target 1. -/
theorem damp_progress_props (lambda : ℝ) (hl : 0 < lambda) :
    (∀ x y l, MathUtils.damp x y l 0 = x) ∧
    (∀ p dt, 0 ≤ dt → p ≤ 1 →
        p ≤ MathUtils.damp p 1 lambda dt ∧ MathUtils.damp p 1 lambda dt ≤ 1) ∧
    (∀ dts : List ℝ, dampRun lambda dts = 1 - Real.exp (-lambda * dts.sum)) ∧
    Filter.Tendsto (fun T => MathUtils.damp 0 1 lambda T) Filter.atTop (nhds 1) := by
  refine ⟨?_, ?_, ?_, ?_⟩
  · intro x y l
    simp [MathUtils.damp, MathUtils.lerp]
  · intro p dt hdt hp
    have harg : -lambda * dt ≤ 0 := by nlinarith
    have hle : Real.exp (-lambda * dt) ≤ 1 := by
      calc Real.exp (-lambda * dt) ≤ Real.exp 0 := Real.exp_le_exp.mpr harg
        _ = 1 := Real.exp_zero
    have hpos : 0 < Real.exp (-lambda * dt) := Real.exp_pos _
    constructor
    · simp only [MathUtils.damp, MathUtils.lerp]
      nlinarith
    · simp only [MathUtils.damp, MathUtils.lerp]
      nlinarith
  · intro dts
    have h := damp_foldl_closed_form lambda dts 0
    simpa [dampRun] using h
  · have h1 : Filter.Tendsto (fun T : ℝ => lambda * T) Filter.atTop Filter.atTop :=
      Filter.Tendsto.const_mul_atTop hl Filter.tendsto_id
    have h2 : Filter.Tendsto (fun T : ℝ => -(lambda * T)) Filter.atTop Filter.atBot :=
      Filter.tendsto_neg_atTop_atBot.comp h1
    have h3 : Filter.Tendsto (fun T : ℝ => Real.exp (-(lambda * T)))
        Filter.atTop (nhds 0) := Real.tendsto_exp_atBot.comp h2
    have h4 : Filter.Tendsto (fun T : ℝ => 1 - Real.exp (-(lambda * T)))
        Filter.atTop (nhds (1 - 0)) := Filter.Tendsto.const_sub 1 h3
    simp only [sub_zero] at h4
    have heq : (fun T : ℝ => MathUtils.damp 0 1 lambda T)
        = fun T : ℝ => 1 - Real.exp (-(lambda * T)) := by
      funext T
      simp [MathUtils.damp, MathUtils.lerp, neg_mul]
    rw [heq]
    exact h4

/-- Witness for C7 at the concrete rate 2 (the value Scene.tsx passes). -/
theorem damp_progress_props_witness :
    (0:ℝ) < 2 ∧
      ((∀ x y l, MathUtils.damp x y l 0 = x) ∧
        (∀ p dt, 0 ≤ dt → p ≤ 1 →
            p ≤ MathUtils.damp p 1 2 dt ∧ MathUtils.damp p 1 2 dt ≤ 1) ∧
        (∀ dts : List ℝ, dampRun 2 dts = 1 - Real.exp (-2 * dts.sum)) ∧
        Filter.Tendsto (fun T => MathUtils.damp 0 1 2 T) Filter.atTop (nhds 1)) :=
  ⟨by norm_num, damp_progress_props 2 (by norm_num)⟩

/-- C8: the interpolated position is an exact componentwise lerp: a needle
at progress 0 sits exactly at its scatterPosition and at progress 1 exactly
at its treePosition; a photo's target is lerpVectors(treePos, scatterPos, t)
with the Scene's inverted progress t (target 1 when SCATTERED), which is
exactly the scatter-to-tree lerp at morph progress 1 - t, so at Scene
progress 1 it equals scatterPos exactly and at 0 treePos exactly. -/
theorem lerp_position_endpoints :
    (∀ e : NeedleEntity,
        needlePosition e 0 = e.scatterPosition ∧ needlePosition e 1 = e.treePosition) ∧
    (∀ (l : PhotoLayout) (t : ℝ),
        photoCurrentTarget l t = lerpVec l.scatterPos l.treePos (1 - t)) ∧
    (∀ l : PhotoLayout,
        photoCurrentTarget l 1 = l.scatterPos ∧ photoCurrentTarget l 0 = l.treePos) := by
  refine ⟨?_, ?_, ?_⟩
  · intro e
    constructor <;>
      (ext <;> (simp only [needlePosition, lerpVec, MathUtils.lerp]; ring))
  · intro l t
    ext <;> (simp only [photoCurrentTarget, lerpVectors, lerpVec, MathUtils.lerp]; ring)
  · intro l
    constructor <;>
      (ext <;> (simp only [photoCurrentTarget, lerpVectors]; ring))

/-- C9 counterexample: with two photos uploaded photo 1 sits at spiral
height 0, but after a third upload the whole layout is recomputed from the
new count and photo 1 moves to height -1 — later additions do reflow
existing photos, refuting the claim as stated. -/
theorem photo_reflow_counterexample :
    photoHeight 1 2 = 0 ∧ photoHeight 1 3 = -1 ∧ ¬ photoNoReflowClaim := by
  have hmax2 : max 2 1 = 2 := by omega
  have hmax3 : max 3 1 = 3 := by omega
  have h2 : photoHeight 1 2 = 0 := by
    unfold photoHeight
    rw [hmax2]
    norm_num
  have h3 : photoHeight 1 3 = -1 := by
    unfold photoHeight
    rw [hmax3]
    norm_num
  refine ⟨h2, h3, ?_⟩
  intro h
  have hy : photoHeight 1 2 = photoHeight 1 3 :=
    congrArg Vec3.y (h 1 2 3 (by norm_num) (by norm_num))
  rw [h2, h3] at hy
  norm_num at hy

/-- C9 amended: each photo's configured position is recomputed as a
deterministic function of its insertion index and the current (clamped)
total count; a later change of the count leaves a photo's configured
position unchanged exactly when the photo has index 0 or the clamped count
is unchanged — every other photo moves when the count changes. -/
theorem photoTreePos_count_dependence (i n m : ℕ) :
    photoTreePos i n = photoTreePos i m ↔ (i = 0 ∨ max n 1 = max m 1) := by
  have hn : 0 < max n 1 := lt_of_lt_of_le Nat.one_pos (le_max_right n 1)
  have hm : 0 < max m 1 := lt_of_lt_of_le Nat.one_pos (le_max_right m 1)
  have han : (0:ℝ) < ((max n 1 : ℕ) : ℝ) := by exact_mod_cast hn
  have ham : (0:ℝ) < ((max m 1 : ℕ) : ℝ) := by exact_mod_cast hm
  constructor
  · intro h
    have hy : photoHeight i n = photoHeight i m := congrArg Vec3.y h
    unfold photoHeight at hy
    have hdiv : (i:ℝ) / ((max n 1 : ℕ) : ℝ) = (i:ℝ) / ((max m 1 : ℕ) : ℝ) := by
      linarith
    rw [div_eq_div_iff han.ne' ham.ne'] at hdiv
    have hz : (i:ℝ) * (((max m 1 : ℕ) : ℝ) - ((max n 1 : ℕ) : ℝ)) = 0 := by
      linear_combination hdiv
    rcases mul_eq_zero.mp hz with hi | hba
    · left
      exact_mod_cast hi
    · right
      have hcast : ((max n 1 : ℕ) : ℝ) = ((max m 1 : ℕ) : ℝ) := by linarith
      exact_mod_cast hcast
  · rintro (rfl | hmax)
    · have h0 : ∀ k : ℕ, photoHeight 0 k = -3 := by
        intro k
        unfold photoHeight
        simp
      ext
      · simp [photoTreePos, h0]
      · simp [photoTreePos, h0]
      · simp [photoTreePos, h0]
    · have hh : photoHeight i n = photoHeight i m := by
        unfold photoHeight
        rw [hmax]
      ext
      · simp [photoTreePos, hh]
      · simp [photoTreePos, hh]
      · simp [photoTreePos, hh]

/-- C10 counterexample: in the explosion regime (progress 1) the particle's
y coordinate incorporates the fresh random sample, so two updates with
identical entity data, progress and elapsed time produce different
transforms — the determinism claim fails as stated. -/
theorem particle_rand_counterexample :
    (particlePosition snowSample 1 0 0).y = -(15 / 2) ∧
    (particlePosition snowSample 1 0 1).y = 15 / 2 ∧
    ¬ particleDeterminismClaim := by
  have hcond : ¬ ((1:ℝ) < 0.5) := by norm_num
  have hy0 : (particlePosition snowSample 1 0 0).y = -(15 / 2) := by
    simp only [particlePosition, if_neg hcond]
    norm_num [snowSample]
  have hy1 : (particlePosition snowSample 1 0 1).y = 15 / 2 := by
    simp only [particlePosition, if_neg hcond]
    norm_num [snowSample]
  refine ⟨hy0, hy1, ?_⟩
  intro h
  have hy := congrArg Vec3.y (h snowSample 1 0 0 1)
  rw [hy0, hy1] at hy
  norm_num at hy

/-- C10 amended: the particle transform is independent of the random sample
in its x and z components always, and entirely so in the falling regime
(progress below 0.5); only the explosion-regime y component reads the
per-update random sample. -/
theorem particle_update_determinism (p : SnowParticle) (t time r1 r2 : ℝ) :
    (particlePosition p t time r1).x = (particlePosition p t time r2).x ∧
    (particlePosition p t time r1).z = (particlePosition p t time r2).z ∧
    (t < 0.5 → particlePosition p t time r1 = particlePosition p t time r2) := by
  by_cases h : t < 0.5
  · have hEq : particlePosition p t time r1 = particlePosition p t time r2 := by
      simp only [particlePosition, if_pos h]
    exact ⟨by rw [hEq], by rw [hEq], fun _ => hEq⟩
  · refine ⟨?_, ?_, fun hc => absurd hc h⟩
    · simp only [particlePosition, if_neg h]
    · simp only [particlePosition, if_neg h]

/-- Witness for C10's amended theorem at concrete inputs in the falling
regime. -/
theorem particle_update_determinism_witness :
    (0:ℝ) < 0.5 ∧
      particlePosition snowSample 0 3 0 = particlePosition snowSample 0 3 1 :=
  ⟨by norm_num, (particle_update_determinism snowSample 0 3 0 1).2.2 (by norm_num)⟩
